import Mathlib

/-!
Verification of the BIM (IFC) Semantic Fidelity Analysis engine of `src/m.py`.

The script's core logic is embedded shallowly:
* element classification counts and percentages (lines 116-124),
* the severity evaluator (lines 151-162),
* the `Pset_WallCommon` completeness checker (lines 186-200),
* the proxy / missing-wall listings with the "Unnamed" fallback
  (lines 172-178 and 208-213),
* the login session gate (lines 9-13, 20, 63-80).

Percentages are modelled over `ℚ` (the Python comparisons on the decimal
thresholds 10, 20, 50 are exact for all values arising here), counts over
`ℕ`, and the signed subtraction `total - semantic - proxy` over `ℤ` as in
Python integer arithmetic.
-/

namespace BIM

/-- The four severity grades of `src/m.py` lines 152-161. -/
inductive SeverityLevel
  | LOW
  | MEDIUM
  | HIGH
  | CRITICAL
deriving DecidableEq, Repr

/-- Embeds the severity conditional chain of `src/m.py` lines 151-162:
`if proxy_pct <= 10: LOW elif proxy_pct < 20: MEDIUM elif proxy_pct < 50:
HIGH else: CRITICAL`. -/
def severity (proxy_pct : ℚ) : SeverityLevel :=
  if proxy_pct ≤ 10 then SeverityLevel.LOW
  else if proxy_pct < 20 then SeverityLevel.MEDIUM
  else if proxy_pct < 50 then SeverityLevel.HIGH
  else SeverityLevel.CRITICAL

/-- The ordering LOW < MEDIUM < HIGH < CRITICAL, as a rank. -/
def sevRank : SeverityLevel → Nat
  | SeverityLevel.LOW => 0
  | SeverityLevel.MEDIUM => 1
  | SeverityLevel.HIGH => 2
  | SeverityLevel.CRITICAL => 3

/-- The five aggregate counts the classifier of `src/m.py` lines 116-119
works from: `total_elements`, `total_walls`, `len(doors)`, `len(windows)`,
`len(proxies)`. -/
structure Counts where
  total : Nat
  walls : Nat
  doors : Nat
  windows : Nat
  proxies : Nat
deriving DecidableEq, Repr

/-- `semantic_elements = total_walls + len(doors) + len(windows)`
(`src/m.py` line 118). -/
def semantic_elements (c : Counts) : Nat :=
  c.walls + c.doors + c.windows

/-- `other_semantic = max(total_elements - semantic_elements -
proxy_elements, 0)` (`src/m.py` line 120), over ℤ as in Python. -/
def other_semantic (c : Counts) : Int :=
  max ((c.total : Int) - (semantic_elements c : Int) - (c.proxies : Int)) 0

/-- `semantic_pct = (semantic_elements / total_elements) * 100 if
total_elements else 0` (`src/m.py` line 122). -/
def semantic_pct (c : Counts) : ℚ :=
  if c.total ≠ 0 then ((semantic_elements c : ℚ) / (c.total : ℚ)) * 100 else 0

/-- `proxy_pct = (proxy_elements / total_elements) * 100 if total_elements
else 0` (`src/m.py` line 123). -/
def proxy_pct (c : Counts) : ℚ :=
  if c.total ≠ 0 then ((c.proxies : ℚ) / (c.total : ℚ)) * 100 else 0

/-- `other_pct = (other_semantic / total_elements) * 100 if total_elements
else 0` (`src/m.py` line 124). -/
def other_pct (c : Counts) : ℚ :=
  if c.total ≠ 0 then ((other_semantic c : ℚ) / (c.total : ℚ)) * 100 else 0

/-- `total_walls = len(walls) + len(standard_walls)` (`src/m.py` line 117),
with the two subtype collections as lists of element identifiers. -/
def total_walls (walls standard_walls : List String) : Nat :=
  walls.length + standard_walls.length

end BIM

namespace BIM

/-- **C1** The severity evaluator maps `proxy_pct` by the fixed thresholds:
`proxy_pct ≤ 10` yields LOW, `10 < proxy_pct < 20` yields MEDIUM,
`20 ≤ proxy_pct < 50` yields HIGH, `proxy_pct ≥ 50` yields CRITICAL; the
boundary values 10, 20 and 50 yield LOW, HIGH and CRITICAL. -/
theorem severity_thresholds (x : ℚ) :
    (x ≤ 10 → severity x = SeverityLevel.LOW) ∧
    (10 < x → x < 20 → severity x = SeverityLevel.MEDIUM) ∧
    (20 ≤ x → x < 50 → severity x = SeverityLevel.HIGH) ∧
    (50 ≤ x → severity x = SeverityLevel.CRITICAL) ∧
    severity 10 = SeverityLevel.LOW ∧
    severity 20 = SeverityLevel.HIGH ∧
    severity 50 = SeverityLevel.CRITICAL := by
  refine ⟨fun h => ?_, fun h1 h2 => ?_, fun h1 h2 => ?_, fun h => ?_, ?_, ?_, ?_⟩ <;>
    · unfold severity
      split_ifs <;> first | rfl | linarith

/-- Witness for C1: the thresholds evaluated at the concrete inputs
5, 15, 30 and 60. -/
theorem severity_thresholds_witness :
    severity 5 = SeverityLevel.LOW ∧
    severity 15 = SeverityLevel.MEDIUM ∧
    severity 30 = SeverityLevel.HIGH ∧
    severity 60 = SeverityLevel.CRITICAL :=
  ⟨(severity_thresholds 5).1 (by norm_num),
   (severity_thresholds 15).2.1 (by norm_num) (by norm_num),
   (severity_thresholds 30).2.2.1 (by norm_num) (by norm_num),
   (severity_thresholds 60).2.2.2.1 (by norm_num)⟩

/-- **C8** The severity evaluator, with LOW < MEDIUM < HIGH < CRITICAL,
is monotonically non-decreasing in `proxy_pct`. -/
theorem severity_monotone (x y : ℚ) (h : x ≤ y) :
    sevRank (severity x) ≤ sevRank (severity y) := by
  unfold severity
  split_ifs <;> first | decide | linarith

/-- Witness for C8 at the concrete pair 5 ≤ 15. -/
theorem severity_monotone_witness :
    (5 : ℚ) ≤ 15 ∧ sevRank (severity 5) ≤ sevRank (severity 15) :=
  ⟨by norm_num, severity_monotone 5 15 (by norm_num)⟩

/-- **C2** For every input of non-negative integer counts the classifier
computes `semantic = walls + doors + windows`,
`other = max(total - semantic - proxy, 0)`, and each percentage as
`count / total * 100`, with every percentage 0 when `total = 0`; the
computation is a total function, so no exception is raised. -/
theorem classifier_formulas (c : Counts) :
    semantic_elements c = c.walls + c.doors + c.windows ∧
    other_semantic c =
      max ((c.total : Int) - ((c.walls + c.doors + c.windows : Nat) : Int)
        - (c.proxies : Int)) 0 ∧
    semantic_pct c =
      (if c.total = 0 then 0
       else ((semantic_elements c : ℚ) / (c.total : ℚ)) * 100) ∧
    proxy_pct c =
      (if c.total = 0 then 0 else ((c.proxies : ℚ) / (c.total : ℚ)) * 100) ∧
    other_pct c =
      (if c.total = 0 then 0
       else ((other_semantic c : ℚ) / (c.total : ℚ)) * 100) := by
  refine ⟨rfl, rfl, ?_, ?_, ?_⟩ <;>
    · simp only [semantic_pct, proxy_pct, other_pct]
      by_cases h : c.total = 0 <;> simp [h]

/-- **C3, as the code behaves**: `total_walls` sums the lengths of the two
wall subtype collections with no deduplication; an identifier present in
both collections is counted twice, while the deduplicated element count
is 1. -/
theorem total_walls_double_counts :
    total_walls ["W1"] ["W1"] = 2 ∧
    ((["W1"] ++ ["W1"] : List String).dedup).length = 1 := by
  constructor
  · rfl
  · simp [List.dedup]

/-- **C4 counterexample**: at total = 1, walls = 2 (doors = windows =
proxies = 0) the classifier yields `other_semantic = 0` yet
`semantic + proxy + other = 2 > 1 = total`, so the unconditional invariant
`semantic + proxy + other_semantic ≤ total` fails. -/
theorem classification_invariant_cex :
    ¬ ((semantic_elements ⟨1, 2, 0, 0, 0⟩ : Int) +
        ((⟨1, 2, 0, 0, 0⟩ : Counts).proxies : Int) +
        other_semantic ⟨1, 2, 0, 0, 0⟩ ≤ ((⟨1, 2, 0, 0, 0⟩ : Counts).total : Int)) := by
  decide

/-- **C4 (amended)** Under the precondition
`semantic + proxy ≤ total` (non-negative integer inputs),
`other_semantic = max(total - semantic - proxy, 0)` and
`semantic + proxy + other_semantic ≤ total` (in fact with equality). -/
theorem classification_invariant (c : Counts)
    (h : semantic_elements c + c.proxies ≤ c.total) :
    other_semantic c =
      max ((c.total : Int) - (semantic_elements c : Int) - (c.proxies : Int)) 0 ∧
    (semantic_elements c : Int) + (c.proxies : Int) + other_semantic c ≤
      (c.total : Int) := by
  refine ⟨rfl, ?_⟩
  unfold other_semantic
  have h' : (0 : Int) ≤ (c.total : Int) - (semantic_elements c : Int) - (c.proxies : Int) := by
    have := h
    omega
  rw [max_eq_left h']
  omega

/-- Witness for C4 at the concrete input total = 100, walls = 40,
doors = 10, windows = 10, proxies = 5. -/
theorem classification_invariant_witness :
    semantic_elements ⟨100, 40, 10, 10, 5⟩ + (⟨100, 40, 10, 10, 5⟩ : Counts).proxies ≤ 100 ∧
    (semantic_elements ⟨100, 40, 10, 10, 5⟩ : Int) +
      ((⟨100, 40, 10, 10, 5⟩ : Counts).proxies : Int) +
      other_semantic ⟨100, 40, 10, 10, 5⟩ ≤ ((⟨100, 40, 10, 10, 5⟩ : Counts).total : Int) :=
  ⟨by decide, (classification_invariant ⟨100, 40, 10, 10, 5⟩ (by decide)).2⟩

/-- **C7** When the total element count is 0 every percentage is 0, the
derived severity is LOW, and the (total) computation raises nothing. -/
theorem empty_model_safe (c : Counts) (h : c.total = 0) :
    semantic_pct c = 0 ∧ proxy_pct c = 0 ∧ other_pct c = 0 ∧
    severity (proxy_pct c) = SeverityLevel.LOW := by
  unfold semantic_pct proxy_pct other_pct severity
  simp [h]

/-- Witness for C7 at the all-zero concrete input. -/
theorem empty_model_safe_witness :
    semantic_pct ⟨0, 0, 0, 0, 0⟩ = 0 ∧ proxy_pct ⟨0, 0, 0, 0, 0⟩ = 0 ∧
    other_pct ⟨0, 0, 0, 0, 0⟩ = 0 ∧
    severity (proxy_pct ⟨0, 0, 0, 0, 0⟩) = SeverityLevel.LOW :=
  empty_model_safe ⟨0, 0, 0, 0, 0⟩ rfl

/-- A property definition reached through `RelatingPropertyDefinition`:
whether it `is_a("IfcPropertySet")`, and its optional `Name`. -/
structure PropDefinition where
  isPropertySet : Bool
  name : Option String
deriving DecidableEq, Repr

/-- One entry of an element's `IsDefinedBy` collection: whether it
`is_a("IfcRelDefinesByProperties")`, and its (possibly null)
`RelatingPropertyDefinition`. -/
structure RelDefinition where
  isRelDefinesByProperties : Bool
  relatingPropertyDefinition : Option PropDefinition
deriving DecidableEq, Repr

/-- An `IfcWall` element as the checker of `src/m.py` lines 186-213 reads
it: `GlobalId`, optional `Name`, and the `IsDefinedBy` collection, which is
`none` when the attribute is absent or unreadable (`hasattr` fails). -/
structure Wall where
  globalId : String
  name : Option String
  isDefinedBy : Option (List RelDefinition)
deriving DecidableEq, Repr

/-- The attachment collection actually iterated: absent/unreadable is
treated as empty (the `hasattr` guard at `src/m.py` line 190). -/
def attachments (w : Wall) : List RelDefinition :=
  w.isDefinedBy.getD []

/-- The body of the loop at `src/m.py` lines 191-196: a definition record
sets `has_pset` exactly when it `is_a("IfcRelDefinesByProperties")`, its
`RelatingPropertyDefinition` is non-null and `is_a("IfcPropertySet")`, and
its `Name == "Pset_WallCommon"`. -/
def relGivesPset (d : RelDefinition) : Bool :=
  d.isRelDefinesByProperties &&
    (match d.relatingPropertyDefinition with
     | some ps => ps.isPropertySet && (ps.name == some "Pset_WallCommon")
     | none => false)

/-- `has_pset` for one wall (`src/m.py` lines 189-196). -/
def has_pset (w : Wall) : Bool :=
  match w.isDefinedBy with
  | none => false
  | some defs => defs.any relGivesPset

/-- `walls_missing_pset` (`src/m.py` lines 187-198): the walls, in input
order, for which `has_pset` stayed false. -/
def walls_missing_pset (ws : List Wall) : List Wall :=
  ws.filter (fun w => !has_pset w)

lemma relGivesPset_eq_true_iff (d : RelDefinition) :
    relGivesPset d = true ↔
      d.isRelDefinesByProperties = true ∧
        ∃ ps, d.relatingPropertyDefinition = some ps ∧
          ps.isPropertySet = true ∧ ps.name = some "Pset_WallCommon" := by
  unfold relGivesPset
  cases hd : d.relatingPropertyDefinition with
  | none => simp [hd]
  | some ps => simp [hd, Bool.and_eq_true, and_assoc]

lemma has_pset_eq_true_iff (w : Wall) :
    has_pset w = true ↔ ∃ d ∈ attachments w, relGivesPset d = true := by
  unfold has_pset attachments
  cases hw : w.isDefinedBy with
  | none => simp
  | some defs => simp [List.any_eq_true]

/-- **C5** A wall is reported in `walls_missing_pset` iff it is in the
checked collection and none of its property-group attachments (an
`IfcRelDefinesByProperties` record whose relating definition is a non-null
`IfcPropertySet`) has `Name` exactly, case-sensitively, equal to
`"Pset_WallCommon"`. -/
theorem walls_missing_pset_iff (ws : List Wall) (w : Wall) :
    w ∈ walls_missing_pset ws ↔
      w ∈ ws ∧ ∀ d ∈ attachments w,
        ¬ (d.isRelDefinesByProperties = true ∧
           ∃ ps, d.relatingPropertyDefinition = some ps ∧
             ps.isPropertySet = true ∧ ps.name = some "Pset_WallCommon") := by
  unfold walls_missing_pset
  rw [List.mem_filter]
  constructor
  · rintro ⟨hmem, hmiss⟩
    refine ⟨hmem, fun d hd hcond => ?_⟩
    have : has_pset w = true :=
      (has_pset_eq_true_iff w).2 ⟨d, hd, (relGivesPset_eq_true_iff d).2 hcond⟩
    simp [this] at hmiss
  · rintro ⟨hmem, hnone⟩
    refine ⟨hmem, ?_⟩
    by_contra hne
    have hps : has_pset w = true := by
      cases h : has_pset w
      · simp [h] at hne
      · rfl
    obtain ⟨d, hd, hdp⟩ := (has_pset_eq_true_iff w).1 hps
    exact hnone d hd ((relGivesPset_eq_true_iff d).1 hdp)

/-- **C6** A wall whose `IsDefinedBy` collection is absent or unreadable
(`isDefinedBy = none`) is treated as having no attachments: `has_pset` is
false and the wall is counted as missing the required group; the checker
is a total function, so nothing is raised or aborted. -/
theorem absent_attachments_missing (ws : List Wall) (w : Wall)
    (hmem : w ∈ ws) (habs : w.isDefinedBy = none) :
    attachments w = [] ∧ has_pset w = false ∧ w ∈ walls_missing_pset ws := by
  have ha : attachments w = [] := by simp [attachments, habs]
  have hp : has_pset w = false := by simp [has_pset, habs]
  exact ⟨ha, hp, by simp [walls_missing_pset, List.mem_filter, hmem, hp]⟩

/-- Witness for C6: a concrete wall with an absent attachment collection
is reported missing. -/
theorem absent_attachments_missing_witness :
    attachments ⟨"GID1", some "WallA", none⟩ = [] ∧
    has_pset ⟨"GID1", some "WallA", none⟩ = false ∧
    (⟨"GID1", some "WallA", none⟩ : Wall) ∈
      walls_missing_pset [⟨"GID1", some "WallA", none⟩] :=
  absent_attachments_missing [⟨"GID1", some "WallA", none⟩]
    ⟨"GID1", some "WallA", none⟩ (List.mem_singleton.2 rfl) rfl

/-- An `IfcBuildingElementProxy` as the proxy listing of `src/m.py` lines
172-178 reads it: optional `Name`, `GlobalId` and `is_a()` type string. -/
structure Element where
  globalId : String
  name : Option String
  ifcType : String
deriving DecidableEq, Repr

/-- `x.Name if x.Name else "Unnamed"` (`src/m.py` lines 174, 210): Python
truthiness makes both an absent (`None`) and a blank (`""`) name fall back
to `"Unnamed"`. -/
def displayName : Option String → String
  | none => "Unnamed"
  | some s => if s = "" then "Unnamed" else s

/-- One row of the proxy tracing table (`src/m.py` lines 173-178). -/
structure ProxyRow where
  name : String
  globalId : String
  ifcType : String
  issue : String
deriving DecidableEq, Repr

/-- `proxy_data` (`src/m.py` lines 171-178). -/
def proxy_data (proxies : List Element) : List ProxyRow :=
  proxies.map (fun p =>
    ⟨displayName p.name, p.globalId, p.ifcType,
     "Semantic meaning lost (generic proxy)"⟩)

/-- One row of the missing-wall table (`src/m.py` lines 209-213). -/
structure PsetRow where
  wallName : String
  globalId : String
  issue : String
deriving DecidableEq, Repr

/-- `pset_data` (`src/m.py` lines 207-213), built over the
`walls_missing_pset` list. -/
def pset_data (ws : List Wall) : List PsetRow :=
  ws.map (fun w => ⟨displayName w.name, w.globalId, "Pset_WallCommon missing"⟩)

/-- **C9** Building the proxy listing and the missing-wall listing is a
total function (never raises), and an element whose optional name is
absent or blank is listed with the name `"Unnamed"`. -/
theorem unnamed_fallback (ps : List Element) (ws : List Wall)
    (p : Element) (w : Wall) (hp : p ∈ ps)
    (hpn : p.name = none ∨ p.name = some "")
    (hw : w ∈ ws) (hwn : w.name = none ∨ w.name = some "") :
    (⟨"Unnamed", p.globalId, p.ifcType,
      "Semantic meaning lost (generic proxy)"⟩ : ProxyRow) ∈ proxy_data ps ∧
    (⟨"Unnamed", w.globalId, "Pset_WallCommon missing"⟩ : PsetRow) ∈
      pset_data ws := by
  have hdp : displayName p.name = "Unnamed" := by
    rcases hpn with h | h <;> simp [displayName, h]
  have hdw : displayName w.name = "Unnamed" := by
    rcases hwn with h | h <;> simp [displayName, h]
  constructor
  · exact List.mem_map.2 ⟨p, hp, by rw [hdp]⟩
  · exact List.mem_map.2 ⟨w, hw, by rw [hdw]⟩

/-- Witness for C9: one proxy with an absent name and one wall with a
blank name, each listed as `"Unnamed"`. -/
theorem unnamed_fallback_witness :
    (⟨"Unnamed", "G1", "IfcBuildingElementProxy",
      "Semantic meaning lost (generic proxy)"⟩ : ProxyRow) ∈
        proxy_data [⟨"G1", none, "IfcBuildingElementProxy"⟩] ∧
    (⟨"Unnamed", "G2", "Pset_WallCommon missing"⟩ : PsetRow) ∈
      pset_data [⟨"G2", some "", none⟩] :=
  unnamed_fallback [⟨"G1", none, "IfcBuildingElementProxy"⟩]
    [⟨"G2", some "", none⟩] ⟨"G1", none, "IfcBuildingElementProxy"⟩
    ⟨"G2", some "", none⟩ (List.mem_singleton.2 rfl) (Or.inl rfl)
    (List.mem_singleton.2 rfl) (Or.inr rfl)

/-- The placeholder option of every selectbox (`src/m.py` lines 29, 42,
54, 65-67). -/
def sentinel : String := "Select an option"

/-- The `user_context` dictionary stored at `src/m.py` lines 71-76. -/
structure UserContext where
  name : String
  role : String
  domain : String
  purpose : String
deriving DecidableEq, Repr

/-- Streamlit session state: `logged_in` and `user_context`
(`src/m.py` lines 9-13). `none` models the initial empty dict. -/
structure SessionState where
  logged_in : Bool
  user_context : Option UserContext
deriving DecidableEq, Repr

/-- The initial session state (`src/m.py` lines 9-13): not logged in,
empty context. -/
def initState : SessionState := ⟨false, none⟩

/-- The widget values of one script run of the login page: the four form
fields and whether the Continue button was pressed. -/
structure LoginInput where
  name : String
  role : String
  domain : String
  purpose : String
  continueClicked : Bool
deriving DecidableEq, Repr

/-- Which page a script run renders. -/
inductive Page
  | login
  | analysis
deriving DecidableEq, Repr

/-- One run of the script (`src/m.py` lines 20-92): if `logged_in` the
login block is skipped and the analysis page runs; otherwise the login
page renders and, on Continue with all three selections different from the
sentinel, the context is stored, `logged_in` is set and `st.rerun()`
restarts (so the analysis page appears only on the next run); in every
other case `st.stop()` ends the run with the state unchanged. -/
def scriptRun (s : SessionState) (inp : LoginInput) : SessionState × Page :=
  if s.logged_in then (s, Page.analysis)
  else if inp.continueClicked then
    if inp.role = sentinel ∨ inp.domain = sentinel ∨ inp.purpose = sentinel then
      (s, Page.login)
    else
      (⟨true, some ⟨inp.name, inp.role, inp.domain, inp.purpose⟩⟩, Page.login)
  else (s, Page.login)

/-- Session states reachable from the initial state by script runs. -/
inductive Reachable : SessionState → Prop
  | init : Reachable initState
  | step (s : SessionState) (inp : LoginInput) :
      Reachable s → Reachable (scriptRun s inp).1

lemma reachable_context_complete (s : SessionState) (hr : Reachable s) :
    s.logged_in = true →
      ∃ c, s.user_context = some c ∧ c.role ≠ sentinel ∧
        c.domain ≠ sentinel ∧ c.purpose ≠ sentinel := by
  induction hr with
  | init => intro h; simp [initState] at h
  | step s inp _ ih =>
      intro h
      unfold scriptRun at h ⊢
      split_ifs at h ⊢ with h1 h2 h3
      · exact ih h
      · exact ih h
      · push_neg at h3
        exact ⟨⟨inp.name, inp.role, inp.domain, inp.purpose⟩, rfl,
          h3.1, h3.2.1, h3.2.2⟩
      · exact ih h

/-- **C10** The session gate never reaches the analysis page with an
incomplete context: from any reachable state, a run that renders the
analysis page starts logged in, and the stored `user_context` then has
role, domain and purpose all different from the sentinel
`"Select an option"` (only the name may be blank). -/
theorem login_gate (s : SessionState) (inp : LoginInput)
    (hr : Reachable s) (ha : (scriptRun s inp).2 = Page.analysis) :
    s.logged_in = true ∧
      ∃ c, s.user_context = some c ∧ c.role ≠ sentinel ∧
        c.domain ≠ sentinel ∧ c.purpose ≠ sentinel := by
  have hl : s.logged_in = true := by
    by_contra hln
    unfold scriptRun at ha
    rw [if_neg hln] at ha
    split_ifs at ha
  exact ⟨hl, reachable_context_complete s hr hl⟩

/-- Witness for C10: after one successful login run from the initial
state, the next run renders the analysis page and the stored context is
complete. -/
theorem login_gate_witness :
    (scriptRun (scriptRun initState
        ⟨"Ada", "Architect", "Architecture", "Compliance", true⟩).1
      ⟨"", sentinel, sentinel, sentinel, false⟩).2 = Page.analysis ∧
    ((scriptRun initState
        ⟨"Ada", "Architect", "Architecture", "Compliance", true⟩).1.logged_in = true ∧
      ∃ c, (scriptRun initState
          ⟨"Ada", "Architect", "Architecture", "Compliance", true⟩).1.user_context
            = some c ∧
        c.role ≠ sentinel ∧ c.domain ≠ sentinel ∧ c.purpose ≠ sentinel) :=
  ⟨by decide,
   login_gate (scriptRun initState
       ⟨"Ada", "Architect", "Architecture", "Compliance", true⟩).1
     ⟨"", sentinel, sentinel, sentinel, false⟩
     (Reachable.step initState
       ⟨"Ada", "Architect", "Architecture", "Compliance", true⟩ Reachable.init)
     (by decide)⟩

end BIM
